import Mathlib

/-!
Verification of the a2a weather-agent repository: a shallow embedding of
the task lifecycle engine, the weather-agent executor, the Streamlit
client-side stream reducer, and the forecast-grouping tool, together with
theorems settling the specification claims about them.
-/

set_option maxHeartbeats 1000000

/-- JSON values as decoded by `json.loads` on the client side and as carried
by A2A protocol payloads.  Numbers are modelled as integers (no claim touches
numeric payload contents). -/
inductive Json where
  | null : Json
  | bool (b : Bool) : Json
  | num (n : Int) : Json
  | str (s : String) : Json
  | arr (xs : List Json) : Json
  | obj (fields : List (String × Json)) : Json

/-- Errors a Python expression can raise at runtime. -/
inductive PyErr where
  | typeError
  | keyError
  | attributeError
  deriving DecidableEq

mutual
/-- Python value equality `==` restricted to JSON values. -/
def Json.beq : Json → Json → Bool
  | .null, .null => true
  | .bool a, .bool c => a == c
  | .num a, .num c => a == c
  | .str a, .str c => a == c
  | .arr xs, .arr ys => Json.beqList xs ys
  | .obj fs, .obj gs => Json.beqFields fs gs
  | _, _ => false

/-- Elementwise `Json.beq` on lists. -/
def Json.beqList : List Json → List Json → Bool
  | [], [] => true
  | x :: xs, y :: ys => Json.beq x y && Json.beqList xs ys
  | _, _ => false

/-- Elementwise `Json.beq` on key-value lists. -/
def Json.beqFields : List (String × Json) → List (String × Json) → Bool
  | [], [] => true
  | (k, v) :: fs, (l, w) :: gs => k == l && Json.beq v w && Json.beqFields fs gs
  | _, _ => false
end

/-- Python truthiness (`if obj:`) of a JSON value. -/
def pyTruthy : Json → Bool
  | .null => false
  | .bool b => b
  | .num n => n != 0
  | .str s => s != ""
  | .arr xs => !xs.isEmpty
  | .obj fs => !fs.isEmpty

/-- Dictionary lookup: the value bound to the first occurrence of a key
(Python dicts have unique keys). -/
def dictGet (fs : List (String × Json)) (k : String) : Option Json :=
  (fs.find? (fun kv => kv.1 == k)).map (fun kv => kv.2)

/-- Python substring membership `needle in hay` on strings. -/
def strContains (hay needle : String) : Bool :=
  (List.range (hay.length + 1)).any (fun i => needle.data.isPrefixOf (hay.data.drop i))

/-- Python `k in obj`: key membership for dicts, substring test for strings,
element membership for lists, `TypeError` otherwise. -/
def pyContains (j : Json) (k : String) : Except PyErr Bool :=
  match j with
  | .obj fs => .ok (fs.any (fun kv => kv.1 == k))
  | .str s => .ok (strContains s k)
  | .arr xs => .ok (xs.any (fun x => Json.beq x (.str k)))
  | _ => .error .typeError

/-- Python `obj[k]` with a string key: dict indexing (`KeyError` when the key
is absent), `TypeError` on any non-dict. -/
def pyIndex (j : Json) (k : String) : Except PyErr Json :=
  match j with
  | .obj fs =>
    match dictGet fs k with
    | some v => .ok v
    | none => .error .keyError
  | _ => .error .typeError

/-- Python `obj.get(k)`: only dicts have `.get`; anything else raises
`AttributeError`. -/
def pyGet (j : Json) (k : String) : Except PyErr (Option Json) :=
  match j with
  | .obj fs => .ok (dictGet fs k)
  | _ => .error .attributeError

/-- Python `obj.get(k, d)`. -/
def pyGetD (j : Json) (k : String) (d : Json) : Except PyErr Json :=
  (pyGet j k).map (fun o => o.getD d)

/-- Is this optional field value the exact string `text`? -/
def isTextTag : Option Json → Bool
  | some (Json.str s) => s == "text"
  | _ => false

/-- From frontend/app.py, `extract_text_from_parts`: is this dict part tagged
as text, i.e. `part.get("kind") == "text" or part.get("type") == "text"`. -/
def partIsTextTagged (fs : List (String × Json)) : Bool :=
  isTextTag (dictGet fs "kind") || isTextTag (dictGet fs "type")

/-- The value `extract_text_from_parts` appends for one part, if any:
a dict part tagged as text contributes `part.get("text", "")`; otherwise a
dict part with a `root` key whose root is a text-tagged dict contributes
`root.get("text", "")`; every other part is skipped (non-dict parts fail the
`isinstance(part, dict)` test). -/
def partText (part : Json) : Option Json :=
  match part with
  | .obj fs =>
    if partIsTextTagged fs then some ((dictGet fs "text").getD (.str ""))
    else
      match dictGet fs "root" with
      | some (Json.obj rs) =>
        if partIsTextTagged rs then some ((dictGet rs "text").getD (.str "")) else none
      | some _ => none
      | none => none
  | _ => none

/-- Python joining a list of collected values with newlines: succeeds iff
every element is a string, raising `TypeError` at the first non-string. -/
def pyJoinNewline (texts : List Json) : Except PyErr String :=
  match texts.mapM (fun t => match t with | Json.str s => some s | _ => none) with
  | some ss => .ok (String.intercalate "\n" ss)
  | none => .error .typeError

/-- From frontend/app.py, `extract_text_from_parts(parts)`.  A falsy argument
returns `""`; iterating a list collects the text of text-bearing dict parts
and joins them with newlines; iterating a string or dict yields characters or
keys, none of which are dicts, so the result is `""`; iterating a truthy
number or boolean raises `TypeError`. -/
def extract_text_from_parts (parts : Json) : Except PyErr String :=
  if pyTruthy parts = false then .ok ""
  else
    match parts with
    | .arr xs => pyJoinNewline (xs.filterMap partText)
    | .str _ => .ok ""
    | .obj _ => .ok ""
    | _ => .error .typeError

mutual
/-- From frontend/app.py, `extract_text_from_result(obj)`.  A falsy argument
returns `""`.  A dict is probed, in order, for the keys `text` (whose raw
value is returned), `parts` (delegated to `extract_text_from_parts`),
`message` and `root` (recursed into, via `extractKey`, which recurses into
the value of the first binding of the key); with none of the keys present
the result is `""`.  On a truthy string, `"text" in obj` is a substring
test, so a string containing one of the probed names raises `TypeError` at
the subsequent indexing, while any other string falls through to `""`; a
truthy list likewise either raises at indexing or falls through; truthy
numbers and booleans raise at the first `in` test. -/
def extract_text_from_result (obj : Json) : Except PyErr Json :=
  if pyTruthy obj = false then .ok (.str "")
  else
    match obj with
    | .obj fs =>
      match dictGet fs "text" with
      | some v => .ok v
      | none =>
        match dictGet fs "parts" with
        | some v => Json.str <$> extract_text_from_parts v
        | none =>
          match extractKey "message" fs with
          | some r => r
          | none =>
            match extractKey "root" fs with
            | some r => r
            | none => .ok (.str "")
    | .str s =>
      if strContains s "text" || strContains s "parts"
          || strContains s "message" || strContains s "root"
      then .error .typeError else .ok (.str "")
    | .arr xs =>
      if xs.any (fun x => Json.beq x (.str "text")) || xs.any (fun x => Json.beq x (.str "parts"))
          || xs.any (fun x => Json.beq x (.str "message")) || xs.any (fun x => Json.beq x (.str "root"))
      then .error .typeError else .ok (.str "")
    | _ => .error .typeError

/-- Recursive extraction from the value of the first binding of a key, if
the key is bound: `extractKey k fs = (dictGet fs k).map extract_text_from_result`
(proved as `extractKey_eq`). -/
def extractKey (k : String) : List (String × Json) → Option (Except PyErr Json)
  | [] => none
  | (l, v) :: fs => if l == k then some (extract_text_from_result v) else extractKey k fs
end

/-- The recursion helper agrees with looking a key up and then extracting. -/
def extractKey_eq (k : String) (fs : List (String × Json)) :
    extractKey k fs = (dictGet fs k).map extract_text_from_result := by
  induction fs with
  | nil => rfl
  | cons kv fs ih =>
    rcases kv with ⟨l, v⟩
    simp only [extractKey, dictGet, List.find?]
    by_cases h : l == k
    · simp [h]
    · simp only [h, if_false, Bool.false_eq_true]
      rw [ih, dictGet]

/-! ## Client-side stream reducer (frontend/app.py, chat-mode event loop) -/

/-- The reducer variables of the chat-mode streaming loop in frontend/app.py
(`status_messages`, `final_response`, `final_state`, `debug_events`, plus the
session task id that events may update). -/
structure ReducerState where
  status_messages : List Json
  final_response : Option Json
  final_state : String
  debug_events : List Json
  chat_task_id : Option Json

/-- Initial loop state: no notes, no response, `final_state = "completed"`,
no events seen (app.py lines 373-376). -/
def initReducer : ReducerState :=
  { status_messages := [], final_response := none, final_state := "completed"
    debug_events := [], chat_task_id := none }

/-- Python truthiness of an optional value (`if final_response:` where the
variable starts out as `None`). -/
def truthyOpt : Option Json → Bool
  | none => false
  | some j => pyTruthy j

/-- Python `state == lit` where `state` is a JSON value and `lit` a string
literal: true exactly when the value is that string. -/
def jsonEqStr (j : Json) (s : String) : Bool :=
  match j with
  | .str t => t == s
  | _ => false

/-- The status branch of the chat-mode event loop (app.py lines 392-417):
a working state appends an interim note when the extracted text is truthy;
input_required, completed and failed set `final_state` and, when the text
is truthy, `final_response`; any other state changes nothing. -/
def statusFold (st : ReducerState) (state text : Json) : ReducerState :=
  if jsonEqStr state "working" then
    if pyTruthy text then
      { st with status_messages := st.status_messages ++ [text] }
    else st
  else if jsonEqStr state "input_required" then
    { st with final_state := "input_required"
              final_response := if pyTruthy text then some text else st.final_response }
  else if jsonEqStr state "completed" then
    { st with final_state := "completed"
              final_response := if pyTruthy text then some text else st.final_response }
  else if jsonEqStr state "failed" then
    { st with final_state := "failed"
              final_response := if pyTruthy text then some text else st.final_response }
  else st

/-- The artifact branch of the loop (app.py lines 419-425): a truthy
extracted text overwrites `final_response`, and `final_state` becomes
`completed` unconditionally. -/
def artifactFold (st : ReducerState) (text : Json) : ReducerState :=
  { st with final_response := if pyTruthy text then some text else st.final_response
            final_state := "completed" }

/-- One iteration of the chat-mode event loop for an SSE `event` item
(frontend/app.py lines 379-425): record the raw event, and if it carries a
`result`, update the task id, fold the `status` field via `statusFold`,
then fold the `artifact` field via `artifactFold`. -/
def processEvent (st : ReducerState) (data : Json) : Except PyErr ReducerState := do
  let st := { st with debug_events := st.debug_events ++ [data] }
  if (← pyContains data "result") then
    let result ← pyIndex data "result"
    let idv ← pyGet result "id"
    let st := if truthyOpt idv then { st with chat_task_id := idv } else st
    let st ← (do
      if (← pyContains result "status") then
        let status ← pyIndex result "status"
        let state ← pyGetD status "state" (.str "")
        let msg ← pyGetD status "message" (.obj [])
        let text ← extract_text_from_result msg
        pure (statusFold st state text)
      else pure st)
    if (← pyContains result "artifact") then
      let artifact ← pyIndex result "artifact"
      let text ← extract_text_from_result artifact
      pure (artifactFold st text)
    else pure st
  else pure st

/-- The items yielded by `send_message_stream`: parsed SSE events, a final
`complete` marker, or an `error` item carrying the exception text. -/
inductive StreamItem where
  | event (data : Json)
  | complete
  | errorItem (e : String)

/-- One iteration of the chat-mode loop over a stream item: events go through
`processEvent`; an error item records `"Error: ..."` as the response and
forces `final_state = "failed"`; the `complete` marker matches no branch. -/
def stepItem (st : ReducerState) : StreamItem → Except PyErr ReducerState
  | .event d => processEvent st d
  | .errorItem e =>
    pure { st with final_response := some (.str ("Error: " ++ e)), final_state := "failed" }
  | .complete => pure st

/-- Run the chat-mode reducer over a whole stream, in item order. -/
def runStream (items : List StreamItem) : Except PyErr ReducerState :=
  items.foldlM stepItem initReducer

/-- Chat messages appended to the transcript.  The diagnostic message's
content is the f-string `"No text extracted. Raw events: ..."` built from
`json.dumps` of the recorded events; the model carries the recorded events
themselves. -/
inductive ChatMsg where
  | user (content : Json)
  | statusNote (content : Json)
  | assistant (content : Json)
  | assistantError (content : Json)
  | rawDiagnostic (events : List Json)

/-- The assistant messages appended after the stream ends (app.py lines
431-455): one status note per recorded interim message, then the final
response (error-styled when `final_state == "failed"`) when it is truthy,
then the raw-events diagnostic when no response is truthy, no note was
recorded, and at least one event was seen. -/
def finishMessages (st : ReducerState) : List ChatMsg :=
  (st.status_messages.map ChatMsg.statusNote)
  ++ (match st.final_response with
      | some r =>
        if pyTruthy r then
          if st.final_state == "failed" then [ChatMsg.assistantError r] else [ChatMsg.assistant r]
        else []
      | none => [])
  ++ (if truthyOpt st.final_response = false ∧ st.status_messages.isEmpty = true
         ∧ st.debug_events.isEmpty = false
      then [ChatMsg.rawDiagnostic st.debug_events] else [])

/-- The chat session state surrounding one prompt (`st.session_state`):
transcript and observable chat state. -/
structure ChatSession where
  chat_messages : List ChatMsg
  chat_state : String

/-- Submitting a prompt (app.py lines 365-370): append the user message and
set the observable chat state to `working` before any event is processed. -/
def onPromptStart (sess : ChatSession) (prompt : String) : ChatSession :=
  { chat_messages := sess.chat_messages ++ [ChatMsg.user (.str prompt)]
    chat_state := "working" }

/-- After the stream ends (app.py lines 431-458): append the reduced
messages and set the observable chat state to the reducer's final state. -/
def onPromptFinish (sess : ChatSession) (st : ReducerState) : ChatSession :=
  { chat_messages := sess.chat_messages ++ finishMessages st
    chat_state := st.final_state }

/-- A status-update SSE event whose result carries only a `status` with the
given state string and message payload. -/
def mkStatusEvent (state : String) (message : Json) : Json :=
  .obj [("result", .obj [("status", .obj [("state", .str state), ("message", message)])])]

/-- An artifact SSE event whose result carries only an `artifact` payload. -/
def mkArtifactEvent (artifact : Json) : Json :=
  .obj [("result", .obj [("artifact", artifact)])]

/-! ## Task lifecycle engine and weather-agent executor -/

/-- A2A task states. -/
inductive TState where
  | submitted
  | working
  | input_required
  | completed
  | failed
  | canceled
  deriving DecidableEq

/-- The permanently terminal states: completed, failed, canceled. -/
def TState.isTerminal : TState → Bool
  | .completed | .failed | .canceled => true
  | _ => false

/-- Protocol-level errors raised as `ServerError` by the executor or
signalled by the lifecycle engine. -/
inductive A2AError where
  | invalidParams
  | internalError
  | unsupportedOperation
  | invalidTransition
  deriving DecidableEq

/-- The stored task record: current state, latest status message, and the
append-only list of named artifacts (name and text). -/
structure TaskRecord where
  state : TState
  message : Option String
  artifacts : List (String × String)
  deriving DecidableEq

/-- Modelled from the spec: the a2a SDK `TaskUpdater.update_status`
(spec section 4.4), which lives in the a2a library, not under src/ — only
its caller `WeatherAgentExecutor.execute` is.  It validates that the task is
not already in a terminal state, failing with `InvalidTransition` otherwise
as a no-op-with-error that never overwrites a terminal state, and writes the
new status to the task store. -/
def update_status (t : TaskRecord) (s : TState) (msg : Option String) (final : Bool)
    : Except A2AError TaskRecord :=
  if t.state.isTerminal then .error .invalidTransition
  else .ok { t with state := s, message := msg }

/-- A status-update call as issued against one task. -/
structure StatusCall where
  state : TState
  message : Option String
  final : Bool
  deriving DecidableEq

/-- Apply a sequence of `update_status` calls to the stored task; a failing
call leaves the store untouched (spec section 4.4: a no-op-with-error). -/
def applyStatusCalls (t : TaskRecord) (calls : List StatusCall) : TaskRecord :=
  calls.foldl (fun t c =>
    match update_status t c.state c.message c.final with
    | .ok t' => t'
    | .error _ => t) t

/-- One item yielded by `WeatherAgent.stream`: the completion flags and the
content string. -/
structure WorkerItem where
  is_task_complete : Bool
  require_user_input : Bool
  content : String
  deriving DecidableEq

/-- Does an item take one of the two terminating branches of the executor
loop? -/
def itemFlagged (i : WorkerItem) : Bool :=
  i.is_task_complete || i.require_user_input

/-- Protocol events emitted by the lifecycle engine on behalf of the
executor: status updates (state, optional message text, final flag) and
artifact updates (artifact name and text). -/
inductive Event where
  | statusUpdate (state : TState) (message : Option String) (final : Bool)
  | artifactUpdate (name : String) (text : String)
  deriving DecidableEq

/-- The working status event the executor emits for an intermediate item. -/
def workingEvent (i : WorkerItem) : Event :=
  .statusUpdate .working (some i.content) false

/-- From src/agents/weather_agent/agent_executor.py, the event-emission loop
of `WeatherAgentExecutor.execute` (lines 59-93): an item with neither flag
emits a non-final working status carrying its content; the loop stops at the
first flagged item, emitting a final input-required status for
`require_user_input` (checked first, as in the `elif`), or an artifact named
`weather_result` followed by `updater.complete()` — a final completed status
with no message — for `is_task_complete`. -/
def processItems : List WorkerItem → List Event
  | [] => []
  | item :: rest =>
    if item.is_task_complete = false ∧ item.require_user_input = false then
      workingEvent item :: processItems rest
    else if item.require_user_input then
      [.statusUpdate .input_required (some item.content) true]
    else
      [.artifactUpdate "weather_result" item.content,
       .statusUpdate .completed none true]

/-- The worker's item stream as observed by the executor: either it yields
its items and finishes, or it raises an unexpected exception after yielding
some items. -/
inductive WorkerStream where
  | yields (items : List WorkerItem)
  | raisesAfter (items : List WorkerItem)

/-- The executor run (agent_executor.py lines 59-97): the events emitted and
the outcome.  The `try` block wraps only the loop, so when the stream raises
after items that already made the loop break (a flagged item), the exception
is never observed; otherwise the catch-all handler logs and re-raises
`ServerError(InternalError())`. -/
def executeRun : WorkerStream → List Event × Except A2AError Unit
  | .yields items => (processItems items, .ok ())
  | .raisesAfter items =>
    if items.any itemFlagged then (processItems items, .ok ())
    else (processItems items, .error .internalError)

/-- Applying one emitted event to the stored task: a status update goes
through `update_status` (a failing update leaves the store untouched), an
artifact update appends the artifact. -/
def applyEvent (t : TaskRecord) : Event → TaskRecord
  | .statusUpdate s m f =>
    match update_status t s m f with
    | .ok t' => t'
    | .error _ => t
  | .artifactUpdate name text => { t with artifacts := t.artifacts ++ [(name, text)] }

/-- Modelled from the spec: the synchronous Dispatcher path (spec sections
4.5 and 7), which lives in the a2a request handler, not under src/.  It runs
the executor, persists each emitted event, and — when the worker raises an
unexpected fault — routes the failure through `update_status(failed, ...)`
and then surfaces the internal error to the caller. -/
def dispatcherSyncRun (t : TaskRecord) (ws : WorkerStream)
    : Except A2AError Unit × TaskRecord :=
  let r := executeRun ws
  let t' := r.1.foldl applyEvent t
  match r.2 with
  | .ok _ => (.ok (), t')
  | .error e => (.error e, applyEvent t' (.statusUpdate .failed none true))

/-- From src/agents/weather_agent/agent_executor.py, `cancel` (lines
111-123): it unconditionally raises `ServerError(UnsupportedOperationError())`
before requesting any state change. -/
def WeatherAgentExecutor.cancel : Except A2AError Unit :=
  .error .unsupportedOperation

/-- A cancel request against a stored task: the surrounding request handler
invokes the executor's `cancel`, which raises before any transition is
requested, so the stored task is returned unchanged alongside the error. -/
def handleCancel (t : TaskRecord) : Except A2AError Unit × TaskRecord :=
  (WeatherAgentExecutor.cancel, t)

/-! ## Weather agent structured response (src/agents/weather_agent/agent.py) -/

/-- The `status` literal of `WeatherResponseFormat`. -/
inductive WStatus where
  | input_required
  | completed
  | error
  deriving DecidableEq

/-- The structured response format produced by the agent. -/
structure WeatherResponseFormat where
  status : WStatus
  message : String
  deriving DecidableEq

/-- From src/agents/weather_agent/agent.py, `WeatherAgent._format_response`
(lines 247-266): `input_required` and `error` both map to
`is_task_complete = False, require_user_input = True`; the remaining case,
`completed`, maps to `is_task_complete = True, require_user_input = False`;
the content is always the response message. -/
def format_response (r : WeatherResponseFormat) : WorkerItem :=
  match r.status with
  | .input_required =>
    { is_task_complete := false, require_user_input := true, content := r.message }
  | .error =>
    { is_task_complete := false, require_user_input := true, content := r.message }
  | .completed =>
    { is_task_complete := true, require_user_input := false, content := r.message }

/-! ## Forecast grouping (src/tools/api_tools/weather_api/weather_api.py) -/

/-- Python `obj.get(k, d)` smoothed to a total function: forecast items in an
API response are JSON objects, on which `.get` never raises; a non-object
receiver (which would raise `AttributeError` in Python) yields the default. -/
def jGetD (j : Json) (k : String) (d : Json) : Json :=
  match j with
  | .obj fs => (dictGet fs k).getD d
  | _ => d

/-- The calendar date of a forecast interval:
`item.get('dt_txt', '').split(' ')[0]`.  A missing `dt_txt` defaults to the
empty string, whose split yields the empty date; a non-string `dt_txt`
(which would raise in Python) is treated as no date. -/
def dateOf (item : Json) : String :=
  match jGetD item "dt_txt" (.str "") with
  | .str s => (s.data.takeWhile (fun c => c != ' ')).asString
  | _ => ""

/-- One entry of the returned `forecasts` list. -/
structure ForecastEntry where
  date : String
  temperature : Json
  feels_like : Json
  humidity : Json
  description : Json
  wind_speed : Json

/-- The description field: `item.get('weather', [{}])[0].get('description')`.
A missing `weather` defaults to `[{}]`, whose head has no description; an
empty or non-list `weather` (which would raise in Python) yields null. -/
def weatherDesc (item : Json) : Json :=
  match jGetD item "weather" (.arr [.obj []]) with
  | .arr (w :: _) => jGetD w "description" .null
  | _ => .null

/-- The forecast entry built from one 3-hour interval item
(weather_api.py lines 103-110); absent fields become null, as `.get`
returns `None`. -/
def mkForecastEntry (item : Json) : ForecastEntry :=
  { date := dateOf item
    temperature := jGetD (jGetD item "main" (.obj [])) "temp" .null
    feels_like := jGetD (jGetD item "main" (.obj [])) "feels_like" .null
    humidity := jGetD (jGetD item "main" (.obj [])) "humidity" .null
    description := weatherDesc item
    wind_speed := jGetD (jGetD item "wind" (.obj [])) "speed" .null }

/-- The grouping loop of `get_weather_forecast` (weather_api.py lines
98-112): walk the 3-hour intervals in order, keeping the first interval of
each nonempty date not yet seen, and stop as soon as the accumulated list
(of length `n` before this step) reaches 5 entries. -/
def forecastGo : List Json → List String → Nat → List ForecastEntry
  | [], _, _ => []
  | item :: rest, seen, n =>
    let d := dateOf item
    if d ≠ "" ∧ seen.contains d = false then
      mkForecastEntry item ::
        (if n + 1 ≥ 5 then [] else forecastGo rest (d :: seen) (n + 1))
    else forecastGo rest seen n

/-- The interval items of a forecast API response: `data.get('list', [])`
(a non-list value, which Python would fail to iterate, yields no items). -/
def forecastListOf (data : Json) : List Json :=
  match jGetD data "list" (.arr []) with
  | .arr xs => xs
  | _ => []

/-- The `forecasts` list returned by `get_weather_forecast` for a decoded
API response (weather_api.py lines 94-117). -/
def get_weather_forecast_forecasts (data : Json) : List ForecastEntry :=
  forecastGo (forecastListOf data) [] 0

/-! ## Helper lemmas -/

/-- A stream of items that never take a terminating branch produces exactly
one working status event per item, in order. -/
def processItems_unflagged : ∀ (items : List WorkerItem),
    (∀ i ∈ items, itemFlagged i = false) →
    processItems items = items.map workingEvent := by
  intro items h
  induction items with
  | nil => rfl
  | cons i rest ih =>
    have hi := h i (List.mem_cons_self i rest)
    simp only [itemFlagged, Bool.or_eq_false_iff] at hi
    simp only [processItems, List.map]
    rw [if_pos ⟨hi.1, hi.2⟩, ih (fun j hj => h j (List.mem_cons_of_mem i hj))]

/-- Processing a stream whose first flagged item requires user input:
one working event per preceding item, then a single final input-required
status, and nothing further. -/
def processItems_input : ∀ (pre : List WorkerItem) (t : WorkerItem) (rest : List WorkerItem),
    (∀ i ∈ pre, itemFlagged i = false) → t.require_user_input = true →
    processItems (pre ++ t :: rest) =
      pre.map workingEvent ++ [.statusUpdate .input_required (some t.content) true] := by
  intro pre t rest hpre ht
  induction pre with
  | nil =>
    simp only [List.nil_append, List.map_nil, processItems]
    rw [if_neg (by simp [ht]), if_pos ht]
  | cons i pre ih =>
    have hi := hpre i (List.mem_cons_self i pre)
    simp only [itemFlagged, Bool.or_eq_false_iff] at hi
    simp only [List.cons_append, processItems, List.map, List.append_eq]
    rw [if_pos ⟨hi.1, hi.2⟩, ih (fun j hj => hpre j (List.mem_cons_of_mem i hj))]

/-- Processing a stream whose first flagged item completes the task:
one working event per preceding item, then the `weather_result` artifact
followed by the final completed status, and nothing further. -/
def processItems_complete : ∀ (pre : List WorkerItem) (t : WorkerItem) (rest : List WorkerItem),
    (∀ i ∈ pre, itemFlagged i = false) →
    t.is_task_complete = true → t.require_user_input = false →
    processItems (pre ++ t :: rest) =
      pre.map workingEvent ++ [.artifactUpdate "weather_result" t.content,
                               .statusUpdate .completed none true] := by
  intro pre t rest hpre h1 h2
  induction pre with
  | nil =>
    simp only [List.nil_append, List.map_nil, processItems]
    rw [if_neg (by simp [h1]), if_neg (by simp [h2])]
  | cons i pre ih =>
    have hi := hpre i (List.mem_cons_self i pre)
    simp only [itemFlagged, Bool.or_eq_false_iff] at hi
    simp only [List.cons_append, processItems, List.map, List.append_eq]
    rw [if_pos ⟨hi.1, hi.2⟩, ih (fun j hj => hpre j (List.mem_cons_of_mem i hj))]

/-- Folding working status events over a non-terminal task keeps it
non-terminal (each one succeeds and stores the working state). -/
def applyWorking_nonterminal : ∀ (items : List WorkerItem) (t : TaskRecord),
    t.state.isTerminal = false →
    (((items.map workingEvent).foldl applyEvent t).state.isTerminal = false) := by
  intro items
  induction items with
  | nil => intro t h; simpa using h
  | cons i rest ih =>
    intro t h
    simp only [List.map, List.foldl]
    have hstep : applyEvent t (workingEvent i)
        = { state := TState.working, message := some i.content, artifacts := t.artifacts } := by
      simp [applyEvent, workingEvent, update_status, h]
    rw [hstep]
    exact ih _ rfl

/-! ## Claim theorems -/

/-- C1: once a task's stored state is terminal (completed, failed or
canceled), every `update_status` call fails with `InvalidTransition`, and no
sequence of subsequent `update_status` calls changes the stored task. -/
theorem terminal_state_frozen (t : TaskRecord) (h : t.state.isTerminal = true) :
    (∀ (s : TState) (m : Option String) (f : Bool),
        update_status t s m f = .error .invalidTransition)
    ∧ (∀ calls : List StatusCall, applyStatusCalls t calls = t) := by
  constructor
  · intro s m f
    simp [update_status, h]
  · intro calls
    induction calls with
    | nil => rfl
    | cons c cs ih =>
      simp only [applyStatusCalls, List.foldl] at ih ⊢
      rw [show (match update_status t c.state c.message c.final with
                | .ok t' => t'
                | .error _ => t) = t by simp [update_status, h]]
      exact ih

/-- Witness for C1 at a concrete completed task. -/
theorem terminal_state_frozen_witness :
    update_status ⟨.completed, none, []⟩ .working none false = .error .invalidTransition
    ∧ applyStatusCalls ⟨.completed, none, []⟩
        [⟨.working, none, false⟩, ⟨.failed, none, true⟩] = ⟨.completed, none, []⟩ :=
  ⟨(terminal_state_frozen ⟨.completed, none, []⟩ rfl).1 .working none false,
   (terminal_state_frozen ⟨.completed, none, []⟩ rfl).2
     [⟨.working, none, false⟩, ⟨.failed, none, true⟩]⟩

/-- C2: when the worker's item stream raises an unexpected exception (after
yielding only non-terminating items, so the executor loop actually observes
the fault), the dispatcher run surfaces `InternalError` to the caller and the
stored task state is `failed`. -/
theorem worker_fault_recorded (t : TaskRecord) (pre : List WorkerItem)
    (h1 : t.state.isTerminal = false)
    (h2 : ∀ i ∈ pre, itemFlagged i = false) :
    (dispatcherSyncRun t (.raisesAfter pre)).1 = .error .internalError
    ∧ (dispatcherSyncRun t (.raisesAfter pre)).2.state = .failed := by
  have hany : pre.any itemFlagged = false := by
    rw [List.any_eq_false]
    intro i hi
    simp [h2 i hi]
  have hrun : executeRun (.raisesAfter pre) = (processItems pre, .error .internalError) := by
    simp [executeRun, hany]
  have hnonterm := applyWorking_nonterminal pre t h1
  constructor
  · simp [dispatcherSyncRun, hrun]
  · simp only [dispatcherSyncRun, hrun, processItems_unflagged pre h2]
    simp [applyEvent, update_status, hnonterm]

/-- Witness for C2: a submitted task and a stream raising after one
intermediate item. -/
theorem worker_fault_recorded_witness :
    (dispatcherSyncRun ⟨.submitted, none, []⟩ (.raisesAfter [⟨false, false, "a"⟩])).1
      = .error .internalError
    ∧ (dispatcherSyncRun ⟨.submitted, none, []⟩ (.raisesAfter [⟨false, false, "a"⟩])).2.state
      = .failed :=
  worker_fault_recorded ⟨.submitted, none, []⟩ [⟨false, false, "a"⟩] rfl
    (by intro i hi; rw [List.mem_singleton] at hi; subst hi; rfl)

/-- C3: the executor emits protocol events in exactly the order of the
originating worker items: items with neither flag each yield one working
status update; the first item requiring user input yields a single final
input-required status and ends the stream; the first completing item yields
the `weather_result` artifact followed by the final completed status and
ends the stream. -/
theorem executor_event_order :
    (∀ (items : List WorkerItem), (∀ i ∈ items, itemFlagged i = false) →
        processItems items = items.map workingEvent)
    ∧ (∀ (pre : List WorkerItem) (t : WorkerItem) (rest : List WorkerItem),
        (∀ i ∈ pre, itemFlagged i = false) → t.require_user_input = true →
        processItems (pre ++ t :: rest) =
          pre.map workingEvent ++ [.statusUpdate .input_required (some t.content) true])
    ∧ (∀ (pre : List WorkerItem) (t : WorkerItem) (rest : List WorkerItem),
        (∀ i ∈ pre, itemFlagged i = false) →
        t.is_task_complete = true → t.require_user_input = false →
        processItems (pre ++ t :: rest) =
          pre.map workingEvent ++ [.artifactUpdate "weather_result" t.content,
                                   .statusUpdate .completed none true]) :=
  ⟨processItems_unflagged, processItems_input, processItems_complete⟩

/-- Witness for C3 at concrete item streams. -/
theorem executor_event_order_witness :
    processItems [⟨false, false, "a"⟩, ⟨false, false, "b"⟩]
      = [workingEvent ⟨false, false, "a"⟩, workingEvent ⟨false, false, "b"⟩]
    ∧ processItems [⟨false, false, "a"⟩, ⟨false, true, "q"⟩, ⟨false, false, "z"⟩]
      = [workingEvent ⟨false, false, "a"⟩, .statusUpdate .input_required (some "q") true]
    ∧ processItems [⟨false, false, "a"⟩, ⟨true, false, "done"⟩, ⟨false, false, "z"⟩]
      = [workingEvent ⟨false, false, "a"⟩, .artifactUpdate "weather_result" "done",
         .statusUpdate .completed none true] :=
  ⟨executor_event_order.1 [⟨false, false, "a"⟩, ⟨false, false, "b"⟩]
      (by intro i hi; simp only [List.mem_cons, List.not_mem_nil, or_false] at hi
          rcases hi with rfl | rfl <;> rfl),
   executor_event_order.2.1 [⟨false, false, "a"⟩] ⟨false, true, "q"⟩ [⟨false, false, "z"⟩]
      (by intro i hi; rw [List.mem_singleton] at hi; subst hi; rfl) rfl,
   executor_event_order.2.2 [⟨false, false, "a"⟩] ⟨true, false, "done"⟩ [⟨false, false, "z"⟩]
      (by intro i hi; rw [List.mem_singleton] at hi; subst hi; rfl) rfl rfl⟩

/-- C4 counterexample: a cancel request on a non-terminal (working) task
does not transition it to canceled; it fails with `UnsupportedOperation` and
leaves the stored state at working. -/
theorem cancel_nonterminal_counterexample :
    (TaskRecord.mk .working none []).state.isTerminal = false
    ∧ handleCancel ⟨.working, none, []⟩ = (.error .unsupportedOperation, ⟨.working, none, []⟩)
    ∧ decide ((handleCancel ⟨.working, none, []⟩).2.state = TState.canceled) = false :=
  ⟨rfl, rfl, rfl⟩

/-- C4 amended: a cancel request never transitions any task: the executor's
`cancel` unconditionally fails with `UnsupportedOperation` and the stored
task is returned unchanged. -/
theorem cancel_always_unsupported (t : TaskRecord) :
    handleCancel t = (.error .unsupportedOperation, t) := rfl

/-- C9: `_format_response` marks the task complete exactly for status
`completed`; both `input_required` and `error` yield
`require_user_input = true` with `is_task_complete = false`; the content is
always the message; and the two flags are never both true. -/
theorem format_response_flags (r : WeatherResponseFormat) :
    (format_response r).is_task_complete = decide (r.status = WStatus.completed)
    ∧ (format_response r).require_user_input = !decide (r.status = WStatus.completed)
    ∧ (format_response r).content = r.message
    ∧ ((format_response r).is_task_complete && (format_response r).require_user_input) = false := by
  rcases r with ⟨status, message⟩
  cases status <;> simp [format_response]

/-- The stream of C5's counterexample: an artifact event whose artifact has
no text-bearing parts, followed by a failed status carrying a message. -/
def artifactThenFailedStream : List StreamItem :=
  [.event (mkArtifactEvent (.obj [("parts", .arr [])])),
   .event (mkStatusEvent "failed" (.obj [("text", .str "boom")]))]

/-- C5 counterexample: the artifact's extracted text is empty, yet after the
stream the recorded response is the failed status's message, not the empty
artifact text, and the final state is failed, not completed — so an artifact
event neither overwrites the response when its text is empty nor forces the
final state to completed against a later failed status. -/
theorem artifact_overwrite_counterexample :
    extract_text_from_result (.obj [("parts", .arr [])]) = .ok (.str "")
    ∧ (runStream artifactThenFailedStream).map
        (fun st => (st.final_state, st.final_response))
      = .ok ("failed", some (.str "boom")) :=
  ⟨rfl, rfl⟩

/-- C5 amended: an artifact event records the raw event, sets the reducer's
final state to completed, and overwrites the recorded latest response with
the artifact's extracted text exactly when that text is truthy (an empty
extraction leaves the previous response in place); the effect lands at the
event's position in the stream, so later status events may override it. -/
theorem artifact_event_effect (st : ReducerState) (a t : Json)
    (h : extract_text_from_result a = .ok t) :
    processEvent st (mkArtifactEvent a) = .ok
      { st with debug_events := st.debug_events ++ [mkArtifactEvent a]
                final_response := if pyTruthy t then some t else st.final_response
                final_state := "completed" } := by
  have e : processEvent st (mkArtifactEvent a)
      = (extract_text_from_result a).bind (fun text =>
          pure (artifactFold
            { st with debug_events := st.debug_events ++ [mkArtifactEvent a] } text)) := rfl
  rw [e, h]
  rfl

/-- Witness for C5's amended theorem at a concrete artifact payload. -/
theorem artifact_event_effect_witness :
    processEvent initReducer (mkArtifactEvent (.obj [("text", .str "w")])) = .ok
      { initReducer with debug_events := [mkArtifactEvent (.obj [("text", .str "w")])]
                         final_response := some (.str "w")
                         final_state := "completed" } :=
  artifact_event_effect initReducer (.obj [("text", .str "w")]) (.str "w") rfl

/-- C6: a working status event records the raw event and appends one interim
status note exactly when the extracted message text is truthy; previously
appended notes are preserved as a prefix and every other reducer variable is
unchanged; and the observable chat state is set to working when the prompt
is submitted, so it reads working while such events are the latest
processed. -/
theorem working_status_appends (st : ReducerState) (m t : Json)
    (h : extract_text_from_result m = .ok t) :
    processEvent st (mkStatusEvent "working" m) = .ok
      { st with debug_events := st.debug_events ++ [mkStatusEvent "working" m]
                status_messages := st.status_messages ++ (if pyTruthy t then [t] else []) }
    ∧ (∀ (sess : ChatSession) (p : String), (onPromptStart sess p).chat_state = "working") := by
  constructor
  · have e : processEvent st (mkStatusEvent "working" m)
        = ((extract_text_from_result m).bind (fun text =>
            pure (statusFold
              { st with debug_events := st.debug_events ++ [mkStatusEvent "working" m] }
              (.str "working") text))).bind (fun st2 => pure st2) := rfl
    rw [e, h]
    rcases hpt : pyTruthy t with _ | _
    · simp [statusFold, jsonEqStr, hpt, Except.bind, pure, Except.pure]
    · simp [statusFold, jsonEqStr, hpt, Except.bind, pure, Except.pure]
  · intro sess p
    rfl

/-- Witness for C6 at a concrete working status event. -/
theorem working_status_appends_witness :
    processEvent initReducer (mkStatusEvent "working" (.obj [("text", .str "n1")])) = .ok
      { initReducer with
          debug_events := [mkStatusEvent "working" (.obj [("text", .str "n1")])]
          status_messages := [.str "n1"] }
    ∧ (onPromptStart ⟨[], "idle"⟩ "hi").chat_state = "working" :=
  ⟨(working_status_appends initReducer (.obj [("text", .str "n1")]) (.str "n1") rfl).1,
   (working_status_appends initReducer (.obj [("text", .str "n1")]) (.str "n1") rfl).2
     ⟨[], "idle"⟩ "hi"⟩

/-- C7 counterexample: re-extracting from an already-extracted plain string
is not the identity and is not total: on the string `text` the extractor
raises `TypeError` (Python `in` is a substring test, and indexing a string
with a string key fails), and on the string `hello` it returns the empty
string, not `hello`. -/
theorem extract_plain_string_counterexample :
    extract_text_from_result (.str "text") = .error .typeError
    ∧ extract_text_from_result (.str "hello") = .ok (.str "") :=
  ⟨rfl, rfl⟩

/-- C7 amended: extraction from a payload wrapping an already-extracted
string as its `text` field returns that same string; extraction from a
payload whose parts contain no text-bearing entries returns an empty string
rather than raising; and a part of unrecognized kind is skipped, leaving the
extraction of the remaining parts unchanged. -/
theorem extraction_payload_properties :
    (∀ s : String, extract_text_from_result (.obj [("text", .str s)]) = .ok (.str s))
    ∧ (∀ parts : List Json, (∀ p ∈ parts, partText p = none) →
        extract_text_from_parts (.arr parts) = .ok ""
        ∧ extract_text_from_result (.obj [("parts", .arr parts)]) = .ok (.str ""))
    ∧ (∀ (p : Json) (ps : List Json), partText p = none →
        extract_text_from_parts (.arr (p :: ps)) = extract_text_from_parts (.arr ps)) := by
  refine ⟨fun s => rfl, ?_, ?_⟩
  · intro parts h
    have hparts : extract_text_from_parts (.arr parts) = .ok "" := by
      cases parts with
      | nil => rfl
      | cons p ps =>
        have e1 : extract_text_from_parts (.arr (p :: ps))
            = pyJoinNewline ((p :: ps).filterMap partText) := rfl
        rw [e1, List.filterMap_eq_nil_iff.mpr h]
        rfl
    refine ⟨hparts, ?_⟩
    have e2 : extract_text_from_result (.obj [("parts", .arr parts)])
        = Json.str <$> extract_text_from_parts (.arr parts) := rfl
    rw [e2, hparts]
    rfl
  · intro p ps h
    cases ps with
    | nil =>
      have e1 : extract_text_from_parts (.arr [p])
          = pyJoinNewline ([p].filterMap partText) := rfl
      rw [e1]
      simp [List.filterMap_cons, h, pyJoinNewline]
      rfl
    | cons q qs =>
      have e1 : extract_text_from_parts (.arr (p :: q :: qs))
          = pyJoinNewline ((p :: q :: qs).filterMap partText) := rfl
      have e2 : extract_text_from_parts (.arr (q :: qs))
          = pyJoinNewline ((q :: qs).filterMap partText) := rfl
      rw [e1, e2, List.filterMap_cons, h]

/-- A part of unrecognized kind, used as the witness payload. -/
def imgPart : Json := .obj [("kind", .str "image")]

/-- Witness for C7's amended theorem at concrete payloads. -/
theorem extraction_payload_properties_witness :
    extract_text_from_result (.obj [("text", .str "hello")]) = .ok (.str "hello")
    ∧ extract_text_from_parts (.arr [imgPart]) = .ok ""
    ∧ extract_text_from_result (.obj [("parts", .arr [imgPart])]) = .ok (.str "")
    ∧ extract_text_from_parts (.arr [imgPart, imgPart]) = extract_text_from_parts (.arr [imgPart]) :=
  ⟨extraction_payload_properties.1 "hello",
   (extraction_payload_properties.2.1 [imgPart]
      (by intro p hp; simp only [List.mem_singleton] at hp; subst hp; rfl)).1,
   (extraction_payload_properties.2.1 [imgPart]
      (by intro p hp; simp only [List.mem_singleton] at hp; subst hp; rfl)).2,
   extraction_payload_properties.2.2 imgPart [imgPart] rfl⟩

/-- C8 counterexample: a stream with no events at all ends with no recorded
response and no status note, yet the reducer surfaces nothing — the
transcript gains no message, diagnostic or otherwise. -/
theorem empty_stream_counterexample :
    runStream [] = .ok initReducer
    ∧ initReducer.final_response = none
    ∧ initReducer.status_messages = []
    ∧ finishMessages initReducer = [] :=
  ⟨rfl, rfl, rfl, rfl⟩

/-- C8 amended: when the stream ends with no truthy recorded response and no
interim status note, and at least one raw event was recorded, the reducer
surfaces exactly one diagnostic message carrying the recorded raw events;
with no events at all, nothing is surfaced. -/
theorem diagnostic_on_empty_extraction (st : ReducerState)
    (h1 : truthyOpt st.final_response = false)
    (h2 : st.status_messages = [])
    (h3 : st.debug_events.isEmpty = false) :
    finishMessages st = [ChatMsg.rawDiagnostic st.debug_events] := by
  unfold finishMessages
  rw [h2]
  rcases hr : st.final_response with _ | r
  · simp [h3, hr, truthyOpt]
  · have hrt : pyTruthy r = false := by
      rw [hr] at h1
      simpa [truthyOpt] using h1
    simp [h3, hr, hrt, truthyOpt]

/-- Witness for C8's amended theorem: one event that yields no text. -/
theorem diagnostic_on_empty_extraction_witness :
    finishMessages { initReducer with debug_events := [Json.obj []] }
      = [ChatMsg.rawDiagnostic [Json.obj []]] :=
  diagnostic_on_empty_extraction { initReducer with debug_events := [Json.obj []] }
    rfl rfl rfl

/-- The grouping loop keeps the total count bounded by five. -/
def forecastGo_length : ∀ (items : List Json) (seen : List String) (n : Nat),
    n < 5 → (forecastGo items seen n).length + n ≤ 5 := by
  intro items
  induction items with
  | nil =>
    intro seen n h
    simp only [forecastGo, List.length_nil]
    omega
  | cons item rest ih =>
    intro seen n h
    simp only [forecastGo]
    by_cases hc : dateOf item ≠ "" ∧ seen.contains (dateOf item) = false
    · rw [if_pos hc]
      by_cases h5 : n + 1 ≥ 5
      · rw [if_pos h5]
        simp only [List.length_cons, List.length_nil]
        omega
      · rw [if_neg h5]
        have := ih (dateOf item :: seen) (n + 1) (by omega)
        simp only [List.length_cons]
        omega
    · rw [if_neg hc]
      exact ih seen n h

/-- The grouping loop's output is a sublist of the entries built from the
input intervals, in input order. -/
def forecastGo_sublist : ∀ (items : List Json) (seen : List String) (n : Nat),
    List.Sublist (forecastGo items seen n) (items.map mkForecastEntry) := by
  intro items
  induction items with
  | nil => intro seen n; simp [forecastGo]
  | cons item rest ih =>
    intro seen n
    simp only [forecastGo, List.map]
    by_cases hc : dateOf item ≠ "" ∧ seen.contains (dateOf item) = false
    · rw [if_pos hc]
      by_cases h5 : n + 1 ≥ 5
      · rw [if_pos h5]
        exact (List.nil_sublist _).cons₂ _
      · rw [if_neg h5]
        exact (ih (dateOf item :: seen) (n + 1)).cons₂ _
    · rw [if_neg hc]
      exact (ih seen n).cons _

/-- The dates of the grouped entries are distinct and none of them is
already in the seen set. -/
def forecastGo_dates : ∀ (items : List Json) (seen : List String) (n : Nat),
    ((forecastGo items seen n).map ForecastEntry.date).Nodup
    ∧ (∀ d ∈ (forecastGo items seen n).map ForecastEntry.date, seen.contains d = false) := by
  intro items
  induction items with
  | nil => intro seen n; simp [forecastGo]
  | cons item rest ih =>
    intro seen n
    simp only [forecastGo]
    by_cases hc : dateOf item ≠ "" ∧ seen.contains (dateOf item) = false
    · rw [if_pos hc]
      by_cases h5 : n + 1 ≥ 5
      · rw [if_pos h5]
        constructor
        · simp
        · intro d hd
          simp only [List.map_cons, List.map_nil, List.mem_singleton] at hd
          rw [hd]
          exact hc.2
      · rw [if_neg h5]
        obtain ⟨hnd, hnotin⟩ := ih (dateOf item :: seen) (n + 1)
        constructor
        · simp only [List.map_cons, List.nodup_cons]
          refine ⟨?_, hnd⟩
          intro hmem
          have hfresh := hnotin _ hmem
          simp [List.contains_cons, mkForecastEntry] at hfresh
        · intro d hd
          simp only [List.map_cons, List.mem_cons] at hd
          rcases hd with rfl | hd
          · exact hc.2
          · have hfresh := hnotin d hd
            simp only [List.contains_cons, Bool.or_eq_false_iff] at hfresh
            exact hfresh.2
    · rw [if_neg hc]
      exact ih seen n

/-- Every grouped entry has a nonempty date outside the seen set and is
built from the first input interval bearing that date. -/
def forecastGo_first : ∀ (items : List Json) (seen : List String) (n : Nat)
    (e : ForecastEntry), e ∈ forecastGo items seen n →
    e.date ≠ "" ∧ seen.contains e.date = false ∧
    ∃ i, items.find? (fun it => dateOf it == e.date) = some i ∧ e = mkForecastEntry i := by
  intro items
  induction items with
  | nil =>
    intro seen n e he
    simp [forecastGo] at he
  | cons item rest ih =>
    intro seen n e he
    simp only [forecastGo] at he
    by_cases hc : dateOf item ≠ "" ∧ seen.contains (dateOf item) = false
    · rw [if_pos hc] at he
      rcases List.mem_cons.mp he with heq | htail
      · subst heq
        refine ⟨hc.1, hc.2, item, ?_, rfl⟩
        rw [List.find?_cons_of_pos _ (by simp [mkForecastEntry])]
      · by_cases h5 : n + 1 ≥ 5
        · rw [if_pos h5] at htail
          simp at htail
        · rw [if_neg h5] at htail
          obtain ⟨hd, hseen, i, hfind, hei⟩ := ih (dateOf item :: seen) (n + 1) e htail
          simp only [List.contains_cons, Bool.or_eq_false_iff] at hseen
          have hne : (dateOf item == e.date) = false := by
            rcases hbe : dateOf item == e.date with _ | _
            · rfl
            · exfalso
              have heq2 : e.date = dateOf item := (eq_of_beq hbe).symm
              rw [heq2] at hseen
              simp at hseen
          refine ⟨hd, hseen.2, i, ?_, hei⟩
          rw [List.find?_cons_of_neg _ (by simp [hne])]
          exact hfind
    · rw [if_neg hc] at he
      obtain ⟨hd, hseen, i, hfind, hei⟩ := ih seen n e he
      have hne : (dateOf item == e.date) = false := by
        rcases hbe : dateOf item == e.date with _ | _
        · rfl
        · exfalso
          have heq2 : dateOf item = e.date := eq_of_beq hbe
          rcases not_and_or.mp hc with h0 | h0
          · have h00 : dateOf item = "" := not_not.mp h0
            rw [h00] at heq2
            exact hd heq2.symm
          · simp only [Bool.not_eq_false] at h0
            rw [heq2] at h0
            rw [hseen] at h0
            exact absurd h0 (by simp)
      refine ⟨hd, hseen, i, ?_, hei⟩
      rw [List.find?_cons_of_neg _ (by simp [hne])]
      exact hfind

/-- C10: for every decoded forecast API response, the returned `forecasts`
list has at most 5 entries, their calendar dates are pairwise distinct, the
entries appear in the order of the input intervals, and every entry has a
nonempty date and is built from the first interval bearing its date
(intervals with a missing date never contribute an entry). -/
theorem forecast_grouping (data : Json) :
    (get_weather_forecast_forecasts data).length ≤ 5
    ∧ ((get_weather_forecast_forecasts data).map ForecastEntry.date).Nodup
    ∧ List.Sublist (get_weather_forecast_forecasts data) ((forecastListOf data).map mkForecastEntry)
    ∧ ∀ e ∈ get_weather_forecast_forecasts data,
        e.date ≠ ""
        ∧ ∃ i, (forecastListOf data).find? (fun it => dateOf it == e.date) = some i
            ∧ e = mkForecastEntry i := by
  refine ⟨?_, (forecastGo_dates (forecastListOf data) [] 0).1,
    forecastGo_sublist (forecastListOf data) [] 0, ?_⟩
  · have := forecastGo_length (forecastListOf data) [] 0 (by omega)
    unfold get_weather_forecast_forecasts
    omega
  · intro e he
    obtain ⟨hd, _, i, hfind, hei⟩ := forecastGo_first (forecastListOf data) [] 0 e he
    exact ⟨hd, i, hfind, hei⟩

/-- A concrete forecast API response: two intervals on the first day, one on
the second. -/
def forecastData : Json :=
  .obj [("list", .arr [.obj [("dt_txt", .str "2024-01-01 00:00:00")],
                       .obj [("dt_txt", .str "2024-01-01 03:00:00")],
                       .obj [("dt_txt", .str "2024-01-02 00:00:00")]])]

/-- Witness for C10 at the concrete response. -/
theorem forecast_grouping_witness :
    (get_weather_forecast_forecasts forecastData).length ≤ 5
    ∧ ((get_weather_forecast_forecasts forecastData).map ForecastEntry.date).Nodup
    ∧ List.Sublist (get_weather_forecast_forecasts forecastData)
        ((forecastListOf forecastData).map mkForecastEntry)
    ∧ ((mkForecastEntry (.obj [("dt_txt", .str "2024-01-01 00:00:00")])).date ≠ ""
        ∧ ∃ i, (forecastListOf forecastData).find?
              (fun it => dateOf it ==
                (mkForecastEntry (.obj [("dt_txt", .str "2024-01-01 00:00:00")])).date)
              = some i
            ∧ mkForecastEntry (.obj [("dt_txt", .str "2024-01-01 00:00:00")])
              = mkForecastEntry i) :=
  ⟨(forecast_grouping forecastData).1,
   (forecast_grouping forecastData).2.1,
   (forecast_grouping forecastData).2.2.1,
   (forecast_grouping forecastData).2.2.2
     (mkForecastEntry (.obj [("dt_txt", .str "2024-01-01 00:00:00")]))
     (List.mem_cons_self _ _)⟩
